import Mathlib

/-!
Verification of the saponification simulator (src/saponification_app.py).

The live script (lines 504-710) computes, per run:
  * a rate constant `k_sim = A_input * np.exp(-Ea_input / (R * T_sim))` with
    `R = 8.314` (lines 594-595);
  * for each condition `(label, (time_exp, conc_exp))` of
    `data_sets[parameter]` (lines 602-623, 629), a per-condition constant
    `k_temp` obtained by `int(label.replace("K", ""))` inside a bare
    `try/except` falling back to `k_sim` (lines 649-653), and a simulated
    trajectory `conc_sim = odeint(ode_model, C0, time_sim_sec, args=(k_temp,))`
    with `ode_model(C, t, k) = -k*C**2` and `C0 = conc_exp[0]` (lines 645-655).

The embedding below uses exact real arithmetic.  The semantics given to the
`odeint` call is the exact solution `C(t) = C0 / (1 + k*C0*t)` of the source's
ODE `dC/dt = -k*C^2` (the lemma `conc_at_hasDerivAt` certifies that this
function solves exactly the equation `ode_model` defines); Python's float
division, which raises `ZeroDivisionError` on a zero divisor, is embedded as an
`Except` with error value `DomainError`, the name the specification gives that
event.
-/

namespace Saponification

/-- Error kinds named by the specification: `DomainError` is the error the
source raises at `T = 0` (Python `ZeroDivisionError` in line 595), and
`InvalidInputError` is the validation error the specification prescribes for
bad trajectory inputs. -/
inductive KineticsError
  | DomainError
  | InvalidInputError
  deriving DecidableEq, Repr

/-- Gas constant, source line 594: `R = 8.314`. -/
def R : ℝ := 8.314

/-- Arithmetic of source line 595 (and line 651): `A * np.exp(-Ea / (R * T))`,
the value computed when the division does not raise. -/
noncomputable def rate_value (A Ea T : ℝ) : ℝ :=
  A * Real.exp (-Ea / (R * T))

/-- Embeds `k_sim = A_input * np.exp(-Ea_input / (R * T_sim))` (source line
595).  Python float division raises `ZeroDivisionError` exactly when the
divisor `R * T` is zero; that raised exception is the `DomainError` case. -/
noncomputable def compute_rate_constant (A Ea T : ℝ) : Except KineticsError ℝ :=
  if R * T = 0 then Except.error KineticsError.DomainError
  else Except.ok (rate_value A Ea T)

/-- Statement of the specification's formula, written from the spec's words
(`k = A * exp(-Ea / (R*T))` with `R = 8.314` a fixed constant), kept as a
separate definition so the source computation can be compared against it. -/
noncomputable def rate_constant_spec (A Ea T : ℝ) : ℝ :=
  A * Real.exp (-Ea / (8.314 * T))

/-- Right-hand side of the source ODE, line 645:
`def ode_model(C, t, k): return -k * C**2`. -/
noncomputable def ode_model (C _t k : ℝ) : ℝ :=
  -k * C ^ 2

/-- Exact solution of the source ODE `dC/dt = -k*C^2` from `C(0) = C0`:
`C(t) = C0 / (1 + k*C0*t)`.  This is the semantics given to the `odeint`
call of source line 655; `conc_at_hasDerivAt` below proves it solves the
equation `ode_model` defines. -/
noncomputable def conc_at (C0 k t : ℝ) : ℝ :=
  C0 / (1 + k * C0 * t)

/-- Embeds `conc_sim = odeint(ode_model, C0, time_sim_sec, args=(k,))`
(source line 655): one concentration per requested time sample, via the
exact solution of the ODE.  The source performs no input validation and no
clamping: the computation is total. -/
noncomputable def integrate_trajectory (C0 k : ℝ) (time_samples : List ℝ) : List ℝ :=
  time_samples.map (conc_at C0 k)

/-- Embeds `label.replace("K", "")` (source line 650): every occurrence of the
single character `K` is removed. -/
def replaceK (s : String) : String :=
  ⟨s.data.filter (fun c => c ≠ 'K')⟩

/-- Value of a nonempty all-digit character list, `none` otherwise. -/
def digitsToNat? (cs : List Char) : Option Nat :=
  if cs ≠ [] ∧ cs.all Char.isDigit then
    some (cs.foldl (fun n c => 10 * n + (c.toNat - 48)) 0)
  else none

/-- Embeds Python `int(s)` on the label strings of this program: an optional
sign followed by a nonempty run of digits parses, anything else raises
`ValueError` (`none` here).  (Python `int` also strips surrounding whitespace;
no label of this program contains whitespace.) -/
def pyInt? (s : String) : Option ℤ :=
  match s.data with
  | '-' :: rest => (digitsToNat? rest).map (fun n => -(n : ℤ))
  | '+' :: rest => (digitsToNat? rest).map (fun n => (n : ℤ))
  | cs => (digitsToNat? cs).map (fun n => (n : ℤ))

/-- First-branch-or-fallback on `Except`, the shape of the source's bare
`try/except`: a successful body yields its value, any raised error yields the
fallback. -/
def orFallback (e fallback : Except KineticsError ℝ) : Except KineticsError ℝ :=
  match e with
  | Except.ok v => Except.ok v
  | Except.error _ => fallback

/-- Embeds source lines 649-653:
`try: temp_val = int(label.replace("K", "")); k_temp = A_input * np.exp(-Ea_input / (R * temp_val))`
`except: k_temp = k_sim`.
A failed parse raises `ValueError`, and a parsed `temp_val = 0` makes the
division raise `ZeroDivisionError`; the bare `except` catches both and falls
back to `k_sim = compute_rate_constant A Ea T_sim`. -/
noncomputable def k_temp (A Ea T_sim : ℝ) (label : String) : Except KineticsError ℝ :=
  (pyInt? (replaceK label)).elim (compute_rate_constant A Ea T_sim)
    (fun n => orFallback (compute_rate_constant A Ea (n : ℝ))
      (compute_rate_constant A Ea T_sim))

/-- Experimental data dictionary, source lines 602-623, copied literally. -/
def data_sets : List (String × List (String × List ℚ × List ℚ)) :=
  [("Temperature",
    [("293K", ([0, 480, 960, 1440, 1920, 2400, 2880],
               [0.0500, 0.0333, 0.0233, 0.0178, 0.0156, 0.0144, 0.0125])),
     ("303K", ([0, 480, 960, 1440, 1920, 2400, 2880],
               [0.0500, 0.0256, 0.0189, 0.0144, 0.0122, 0.0100, 0.0078])),
     ("313K", ([0, 480, 960, 1440, 1920, 2400, 2880],
               [0.0500, 0.0200, 0.0133, 0.0100, 0.0083, 0.0067, 0.0061]))]),
   ("Volume",
    [("1.2L", ([0, 480, 960, 1440, 1920, 2400, 2880],
               [0.0500, 0.0222, 0.0156, 0.0128, 0.0100, 0.0089, 0.0083])),
     ("1.4L", ([0, 480, 960, 1440, 1920, 2400, 2880],
               [0.0500, 0.0289, 0.0222, 0.0178, 0.0156, 0.0144, 0.0133])),
     ("1.8L", ([0, 480, 960, 1440, 1920, 2400, 2880],
               [0.0500, 0.067, 0.0289, 0.0256, 0.0222, 0.0200, 0.0167]))]),
   ("Agitation Rate",
    [("70rpm", ([0, 480, 960, 1440, 1920, 2400, 2880],
                [0.0500, 0.0189, 0.0133, 0.0100, 0.0078, 0.0067, 0.0056])),
     ("110rpm", ([0, 480, 960, 1440, 1920, 2400, 2880],
                 [0.0500, 0.0256, 0.0189, 0.0156, 0.0128, 0.0111, 0.0100])),
     ("150rpm", ([0, 480, 960, 1440, 1920, 2400, 2880],
                 [0.0500, 0.0333, 0.0267, 0.0222, 0.0200, 0.0178, 0.0156]))]),
   ("Initial Concentration",
    [("0.025M", ([0, 480, 960, 1440, 1920, 2400, 2880],
                 [0.0500, 0.0360, 0.0260, 0.0200, 0.0160, 0.0120, 0.0111])),
     ("0.050M", ([0, 480, 960, 1440, 1920, 2400, 2880],
                 [0.0500, 0.0389, 0.0300, 0.0244, 0.0211, 0.0189, 0.0167])),
     ("0.075M", ([0, 480, 960, 1440, 1920, 2400, 2880],
                 [0.0500, 0.0392, 0.0313, 0.0256, 0.0222, 0.0200, 0.0178]))])]

/-- Curve of a parameter/label pair: the `(time_exp, conc_exp)` tuple the loop
of line 629 receives from `data_sets[parameter]`. -/
def curve (parameter label : String) : List ℚ × List ℚ :=
  ((data_sets.lookup parameter).bind (fun m => m.lookup label)).getD ([], [])

/-- Embeds one iteration of the simulation loop, source lines 645-655:
`C0 = conc_exp[0]`, `k_temp` from the label, then
`conc_sim = odeint(ode_model, C0, time_sim_sec, args=(k_temp,))`. -/
noncomputable def conc_sim (A Ea T_sim : ℝ) (parameter label : String) :
    Except KineticsError (List ℝ) :=
  match k_temp A Ea T_sim label with
  | Except.ok k =>
      Except.ok (integrate_trajectory
        (((curve parameter label).2.headD 0 : ℚ) : ℝ) k
        ((curve parameter label).1.map (fun q => (q : ℝ))))
  | Except.error e => Except.error e

/-! ### Supporting lemmas -/

theorem R_pos : (0 : ℝ) < R := by norm_num [R]

/-- When the divisor does not vanish the source computation returns the
Arrhenius value. -/
theorem compute_rate_constant_of_ne (A Ea T : ℝ) (hT : T ≠ 0) :
    compute_rate_constant A Ea T = Except.ok (rate_value A Ea T) := by
  unfold compute_rate_constant
  rw [if_neg (mul_ne_zero (ne_of_gt R_pos) hT)]

/-- The function `conc_at C0 k` solves the source's ODE `dC/dt = -k*C^2`
(`ode_model`), certifying that it is the exact semantics of the `odeint`
call. -/
theorem conc_at_hasDerivAt (C0 k t : ℝ) (h : 1 + k * C0 * t ≠ 0) :
    HasDerivAt (conc_at C0 k) (ode_model (conc_at C0 k t) t k) t := by
  have hlin : HasDerivAt (fun s : ℝ => 1 + k * C0 * s) (k * C0) t := by
    simpa using ((hasDerivAt_id t).const_mul (k * C0)).const_add 1
  have hinv : HasDerivAt (fun s : ℝ => (1 + k * C0 * s)⁻¹)
      (-(k * C0) / (1 + k * C0 * t) ^ 2) t := hlin.inv h
  have hmul := hinv.const_mul C0
  have heq : C0 * (-(k * C0) / (1 + k * C0 * t) ^ 2) =
      ode_model (conc_at C0 k t) t k := by
    unfold ode_model conc_at
    field_simp
    ring
  have hfun : (fun s : ℝ => C0 * (1 + k * C0 * s)⁻¹) = conc_at C0 k := by
    funext s
    unfold conc_at
    rw [div_eq_mul_inv]
  rw [heq, hfun] at hmul
  exact hmul

theorem conc_at_zero (C0 k : ℝ) : conc_at C0 k 0 = C0 := by
  unfold conc_at
  norm_num

theorem denom_pos (C0 k t : ℝ) (hC0 : 0 ≤ C0) (hk : 0 ≤ k) (ht : 0 ≤ t) :
    (0 : ℝ) < 1 + k * C0 * t := by
  have : 0 ≤ k * C0 * t := mul_nonneg (mul_nonneg hk hC0) ht
  linarith

theorem conc_at_antitone (C0 k t1 t2 : ℝ) (hC0 : 0 ≤ C0) (hk : 0 ≤ k)
    (ht1 : 0 ≤ t1) (h12 : t1 ≤ t2) : conc_at C0 k t2 ≤ conc_at C0 k t1 := by
  unfold conc_at
  have hd1 : (0 : ℝ) < 1 + k * C0 * t1 := denom_pos C0 k t1 hC0 hk ht1
  have hle : 1 + k * C0 * t1 ≤ 1 + k * C0 * t2 := by
    have : k * C0 * t1 ≤ k * C0 * t2 :=
      mul_le_mul_of_nonneg_left h12 (mul_nonneg hk hC0)
    linarith
  exact div_le_div_of_nonneg_left hC0 hd1 hle

theorem conc_at_nonneg (C0 k t : ℝ) (hC0 : 0 ≤ C0) (hk : 0 ≤ k) (ht : 0 ≤ t) :
    0 ≤ conc_at C0 k t := by
  unfold conc_at
  exact div_nonneg hC0 (denom_pos C0 k t hC0 hk ht).le

theorem conc_at_le_init (C0 k t : ℝ) (hC0 : 0 ≤ C0) (hk : 0 ≤ k) (ht : 0 ≤ t) :
    conc_at C0 k t ≤ C0 := by
  have := conc_at_antitone C0 k 0 t hC0 hk le_rfl ht
  rwa [conc_at_zero] at this

/-- When the label fails to parse as an integer, the source falls back to the
global `k_sim`. -/
theorem k_temp_of_parse_none (A Ea T_sim : ℝ) (label : String)
    (h : pyInt? (replaceK label) = none) :
    k_temp A Ea T_sim label = compute_rate_constant A Ea T_sim := by
  unfold k_temp
  rw [h]
  rfl

/-- When the label parses as a nonzero integer, the source uses the
condition-specific Arrhenius value. -/
theorem k_temp_of_parse_some (A Ea T_sim : ℝ) (label : String) (n : ℤ)
    (h : pyInt? (replaceK label) = some n) (hn : (n : ℝ) ≠ 0) :
    k_temp A Ea T_sim label = Except.ok (rate_value A Ea (n : ℝ)) := by
  unfold k_temp
  rw [h]
  show orFallback (compute_rate_constant A Ea (n : ℝ))
      (compute_rate_constant A Ea T_sim) = _
  rw [compute_rate_constant_of_ne A Ea (n : ℝ) hn]
  rfl

/-! ### Claims -/

/-- C1: for every `A`, `Ea`, `T` with `T > 0`, `compute_rate_constant`
returns exactly `A * exp(-Ea / (R*T))` with the fixed gas constant
`R = 8.314` (the formula `rate_constant_spec` states in the spec's words). -/
theorem rate_constant_matches_spec (A Ea T : ℝ) (hT : 0 < T) :
    compute_rate_constant A Ea T = Except.ok (rate_constant_spec A Ea T) := by
  rw [compute_rate_constant_of_ne A Ea T (ne_of_gt hT)]
  unfold rate_value rate_constant_spec R
  rfl

/-- C1 witness: the claim instantiated at `A=0.5`, `Ea=43094.0`, `T=298.0`. -/
theorem rate_constant_matches_spec_witness :
    compute_rate_constant 0.5 43094.0 298.0 =
      Except.ok (rate_constant_spec 0.5 43094.0 298.0) :=
  rate_constant_matches_spec 0.5 43094.0 298.0 (by norm_num)

/-- C4 counterexample: the rate constant is not decreasing in `T`.  At
`A = 1`, `Ea = 8.314`, the returned values at `T = 1` and `T = 2` are
`exp (-1)` and `exp (-1/2)`, and `exp (-1) < exp (-1/2)`, refuting
`compute_rate_constant A Ea T1 >= compute_rate_constant A Ea T2` for
`T1 < T2`. -/
theorem rate_constant_not_decreasing_in_T :
    compute_rate_constant 1 8.314 1 = Except.ok (Real.exp (-1)) ∧
    compute_rate_constant 1 8.314 2 = Except.ok (Real.exp (-(1 / 2))) ∧
    Real.exp (-1) < Real.exp (-(1 / 2)) := by
  refine ⟨?_, ?_, Real.exp_lt_exp.mpr (by norm_num)⟩
  · rw [compute_rate_constant_of_ne 1 8.314 1 (by norm_num)]
    unfold rate_value R
    norm_num
  · rw [compute_rate_constant_of_ne 1 8.314 2 (by norm_num)]
    unfold rate_value R
    norm_num [show (-8.314 : ℝ) / (8.314 * 2) = -(1 / 2) by norm_num]

/-- C4 amended: for `A ≥ 0` and `T > 0` the returned value is non-negative
(for every `Ea`), and holding `A`, `Ea` fixed with `Ea > 0` the value is
monotonically *increasing* in `T`: for `0 < T1 ≤ T2`,
`rate_value A Ea T1 ≤ rate_value A Ea T2`; `compute_rate_constant` returns
exactly this value. -/
theorem rate_constant_nonneg_and_increasing (A Ea T1 T2 : ℝ)
    (hA : 0 ≤ A) (hEa : 0 < Ea) (hT1 : 0 < T1) (h12 : T1 ≤ T2) :
    (∀ Ea' : ℝ, 0 ≤ rate_value A Ea' T1) ∧
    rate_value A Ea T1 ≤ rate_value A Ea T2 ∧
    compute_rate_constant A Ea T1 = Except.ok (rate_value A Ea T1) := by
  refine ⟨fun Ea' => mul_nonneg hA (Real.exp_pos _).le, ?_,
    compute_rate_constant_of_ne A Ea T1 (ne_of_gt hT1)⟩
  unfold rate_value
  have hRT1 : (0 : ℝ) < R * T1 := mul_pos R_pos hT1
  have hdiv : Ea / (R * T2) ≤ Ea / (R * T1) :=
    div_le_div_of_nonneg_left hEa.le hRT1
      (mul_le_mul_of_nonneg_left h12 R_pos.le)
  have hexp : Real.exp (-Ea / (R * T1)) ≤ Real.exp (-Ea / (R * T2)) := by
    apply Real.exp_le_exp.mpr
    rw [neg_div, neg_div]
    exact neg_le_neg hdiv
  exact mul_le_mul_of_nonneg_left hexp hA

/-- C4 amended witness: the amended claim at `A=1`, `Ea=8.314`, `T1=1`,
`T2=2`. -/
theorem rate_constant_nonneg_and_increasing_witness :
    (∀ Ea' : ℝ, 0 ≤ rate_value 1 Ea' 1) ∧
    rate_value 1 8.314 1 ≤ rate_value 1 8.314 2 ∧
    compute_rate_constant 1 8.314 1 = Except.ok (rate_value 1 8.314 1) :=
  rate_constant_nonneg_and_increasing 1 8.314 1 2 (by norm_num) (by norm_num)
    (by norm_num) (by norm_num)

/-- C5: calling `compute_rate_constant` with `T = 0` signals `DomainError`
(the Python `ZeroDivisionError` of line 595), which propagates to the caller;
no numeric value is returned. -/
theorem rate_constant_zero_temp_is_domain_error (A Ea : ℝ) :
    compute_rate_constant A Ea 0 = Except.error KineticsError.DomainError ∧
    ∀ v : ℝ, compute_rate_constant A Ea 0 ≠ Except.ok v := by
  have h : compute_rate_constant A Ea 0 =
      Except.error KineticsError.DomainError := by
    unfold compute_rate_constant
    rw [if_pos (by rw [mul_zero])]
  exact ⟨h, fun v hv => by rw [h] at hv; exact Except.noConfusion hv⟩

/-- C2: for `k ≥ 0`, `C0 > 0` and ascending non-negative time samples,
`integrate_trajectory` returns a sequence of the same length, non-increasing,
with every value in `[0, C0]`; in particular no negative concentration is ever
returned (over exact arithmetic the solution never goes negative, so the
spec's clamp-to-`0.0` policy is never exercised). -/
theorem integrate_trajectory_monotone_bounded (C0 k : ℝ) (ts : List ℝ)
    (hk : 0 ≤ k) (hC0 : 0 < C0) (hnn : ∀ t ∈ ts, 0 ≤ t)
    (hasc : ts.Pairwise (fun a b => a ≤ b)) :
    (integrate_trajectory C0 k ts).length = ts.length ∧
    (integrate_trajectory C0 k ts).Pairwise (fun a b => b ≤ a) ∧
    ∀ c ∈ integrate_trajectory C0 k ts, 0 ≤ c ∧ c ≤ C0 := by
  refine ⟨List.length_map ts (conc_at C0 k), ?_, ?_⟩
  · unfold integrate_trajectory
    rw [List.pairwise_map]
    refine hasc.imp_of_mem ?_
    intro a b ha hb hab
    exact conc_at_antitone C0 k a b hC0.le hk (hnn a ha) hab
  · intro c hc
    unfold integrate_trajectory at hc
    rcases List.mem_map.mp hc with ⟨t, ht, rfl⟩
    exact ⟨conc_at_nonneg C0 k t hC0.le hk (hnn t ht),
      conc_at_le_init C0 k t hC0.le hk (hnn t ht)⟩

/-- C2 witness: the claim instantiated at `C0 = 0.05`, `k = 1`,
`time_samples = [0, 480]`. -/
theorem integrate_trajectory_monotone_bounded_witness :
    (integrate_trajectory 0.05 1 [0, 480]).length = ([0, 480] : List ℝ).length ∧
    (integrate_trajectory 0.05 1 [0, 480]).Pairwise (fun a b => b ≤ a) ∧
    ∀ c ∈ integrate_trajectory 0.05 1 [0, 480], 0 ≤ c ∧ c ≤ 0.05 :=
  integrate_trajectory_monotone_bounded 0.05 1 [0, 480] (by norm_num)
    (by norm_num)
    (by intro t ht; rcases List.mem_cons.mp ht with rfl | ht' <;> simp_all)
    (by norm_num [List.pairwise_cons])

/-- C6 counterexample: the source performs no input validation.  Called with
the non-positive initial concentration `C0 = -1` (and `k = 0`, the rate
constant produced by `A = 0`), the computation does not signal
`InvalidInputError`: it returns the trajectory `[-1, -1]` for the samples
`[0, 480]`. -/
theorem trajectory_returned_for_nonpositive_C0 :
    integrate_trajectory (-1) 0 [0, 480] = [-1, -1] := by
  unfold integrate_trajectory conc_at
  norm_num

/-- C6 amended: the source never validates its inputs and never signals
`InvalidInputError`: for every `C0` (including `C0 ≤ 0`) and every time-sample
list (including unsorted lists and lists with negative entries) it returns a
trajectory with exactly one concentration per requested sample. -/
theorem integrate_trajectory_never_rejects (C0 k : ℝ) (ts : List ℝ) :
    (integrate_trajectory C0 k ts).length = ts.length :=
  List.length_map ts (conc_at C0 k)

/-- C7: for each of the twelve bundled conditions, the per-condition rate
constant is the Arrhenius value at the label's temperature when the label has
the form `<n>K`, and is the global `k_sim = compute_rate_constant A Ea T_sim`
for every label that does not parse as an integer temperature (all volume,
agitation-rate and initial-concentration labels). -/
theorem per_condition_rate_constant (A Ea T_sim : ℝ) :
    (k_temp A Ea T_sim "293K" = Except.ok (rate_value A Ea 293) ∧
     k_temp A Ea T_sim "303K" = Except.ok (rate_value A Ea 303) ∧
     k_temp A Ea T_sim "313K" = Except.ok (rate_value A Ea 313)) ∧
    (k_temp A Ea T_sim "1.2L" = compute_rate_constant A Ea T_sim ∧
     k_temp A Ea T_sim "1.4L" = compute_rate_constant A Ea T_sim ∧
     k_temp A Ea T_sim "1.8L" = compute_rate_constant A Ea T_sim ∧
     k_temp A Ea T_sim "70rpm" = compute_rate_constant A Ea T_sim ∧
     k_temp A Ea T_sim "110rpm" = compute_rate_constant A Ea T_sim ∧
     k_temp A Ea T_sim "150rpm" = compute_rate_constant A Ea T_sim ∧
     k_temp A Ea T_sim "0.025M" = compute_rate_constant A Ea T_sim ∧
     k_temp A Ea T_sim "0.050M" = compute_rate_constant A Ea T_sim ∧
     k_temp A Ea T_sim "0.075M" = compute_rate_constant A Ea T_sim) := by
  refine ⟨⟨?_, ?_, ?_⟩, ?_, ?_, ?_, ?_, ?_, ?_, ?_, ?_, ?_⟩
  · have h := k_temp_of_parse_some A Ea T_sim "293K" 293 (by decide)
      (by norm_num)
    simpa using h
  · have h := k_temp_of_parse_some A Ea T_sim "303K" 303 (by decide)
      (by norm_num)
    simpa using h
  · have h := k_temp_of_parse_some A Ea T_sim "313K" 313 (by decide)
      (by norm_num)
    simpa using h
  all_goals exact k_temp_of_parse_none A Ea T_sim _ (by decide)

/-- C5 witness: the zero-temperature error at `A = 0.5`, `Ea = 43094.0`. -/
theorem rate_constant_zero_temp_is_domain_error_witness :
    compute_rate_constant 0.5 43094.0 0 =
      Except.error KineticsError.DomainError ∧
    ∀ v : ℝ, compute_rate_constant 0.5 43094.0 0 ≠ Except.ok v :=
  rate_constant_zero_temp_is_domain_error 0.5 43094.0

/-- C6 amended witness: a non-ascending sample list still yields one value per
sample. -/
theorem integrate_trajectory_never_rejects_witness :
    (integrate_trajectory (-1) 0 [0, 480, 240]).length = 3 :=
  integrate_trajectory_never_rejects (-1) 0 [0, 480, 240]

/-- C8 counterexample: every curve's time list has 7 entries, not 6; shown at
the `"293K"` curve. -/
theorem curve_has_seven_time_points :
    (curve "Temperature" "293K").1.length = 7 ∧
    ¬ (curve "Temperature" "293K").1.length = 6 := by
  exact ⟨rfl, by decide⟩

/-- C8 amended: each plotted curve integrates the decay ODE over exactly 7
fixed time points (6 fixed intervals), and each selected parameter carries
exactly 3 (hence at most three) conditions. -/
theorem data_sets_shape :
    List.Forall
      (fun p => p.2.length = 3 ∧
        List.Forall (fun c => c.2.1.length = 7) p.2) data_sets := by
  refine ⟨⟨rfl, rfl, rfl, rfl⟩, ⟨rfl, rfl, rfl, rfl⟩,
    ⟨rfl, rfl, rfl, rfl⟩, ⟨rfl, rfl, rfl, rfl⟩⟩

/-- C7 witness: the per-condition rate constants at the default sidebar
parameters `A = 0.5`, `Ea = 43094.0`, `T_sim = 298.0`. -/
theorem per_condition_rate_constant_witness :
    (k_temp 0.5 43094.0 298.0 "293K" =
        Except.ok (rate_value 0.5 43094.0 293) ∧
     k_temp 0.5 43094.0 298.0 "303K" =
        Except.ok (rate_value 0.5 43094.0 303) ∧
     k_temp 0.5 43094.0 298.0 "313K" =
        Except.ok (rate_value 0.5 43094.0 313)) ∧
    (k_temp 0.5 43094.0 298.0 "1.2L" = compute_rate_constant 0.5 43094.0 298.0 ∧
     k_temp 0.5 43094.0 298.0 "1.4L" = compute_rate_constant 0.5 43094.0 298.0 ∧
     k_temp 0.5 43094.0 298.0 "1.8L" = compute_rate_constant 0.5 43094.0 298.0 ∧
     k_temp 0.5 43094.0 298.0 "70rpm" = compute_rate_constant 0.5 43094.0 298.0 ∧
     k_temp 0.5 43094.0 298.0 "110rpm" = compute_rate_constant 0.5 43094.0 298.0 ∧
     k_temp 0.5 43094.0 298.0 "150rpm" = compute_rate_constant 0.5 43094.0 298.0 ∧
     k_temp 0.5 43094.0 298.0 "0.025M" = compute_rate_constant 0.5 43094.0 298.0 ∧
     k_temp 0.5 43094.0 298.0 "0.050M" = compute_rate_constant 0.5 43094.0 298.0 ∧
     k_temp 0.5 43094.0 298.0 "0.075M" = compute_rate_constant 0.5 43094.0 298.0) :=
  per_condition_rate_constant 0.5 43094.0 298.0

/-- C9: every one of the twelve bundled curves carries the identical time list
`[0, 480, 960, 1440, 1920, 2400, 2880]` and the identical initial
concentration `0.0500`; consequently the three "Initial Concentration"
conditions (whose labels do not parse as temperatures) produce identical
simulated curves. -/
theorem bundled_data_uniform :
    List.Forall
      (fun p => List.Forall
        (fun c => c.2.1 = ([0, 480, 960, 1440, 1920, 2400, 2880] : List ℚ) ∧
          c.2.2.headD 0 = (0.0500 : ℚ)) p.2) data_sets ∧
    ∀ A Ea T_sim : ℝ,
      conc_sim A Ea T_sim "Initial Concentration" "0.025M" =
        conc_sim A Ea T_sim "Initial Concentration" "0.050M" ∧
      conc_sim A Ea T_sim "Initial Concentration" "0.050M" =
        conc_sim A Ea T_sim "Initial Concentration" "0.075M" := by
  refine ⟨⟨⟨⟨rfl, rfl⟩, ⟨rfl, rfl⟩, ⟨rfl, rfl⟩⟩, ⟨⟨rfl, rfl⟩, ⟨rfl, rfl⟩, ⟨rfl, rfl⟩⟩,
    ⟨⟨rfl, rfl⟩, ⟨rfl, rfl⟩, ⟨rfl, rfl⟩⟩, ⟨⟨rfl, rfl⟩, ⟨rfl, rfl⟩, ⟨rfl, rfl⟩⟩⟩, ?_⟩
  intro A Ea T_sim
  constructor <;> rfl

/-- C10: the bundled "1.8L" Volume curve is not non-increasing: its first
value is `0.0500`, its second is `0.067`, and `0.0500 < 0.067`, so the
trajectory invariant fails for this reference data. -/
theorem volume_18L_curve_not_nonincreasing :
    (curve "Volume" "1.8L").2.headD 0 = (0.0500 : ℚ) ∧
    (curve "Volume" "1.8L").2.tail.headD 0 = (0.067 : ℚ) ∧
    (curve "Volume" "1.8L").2.headD 0 < (curve "Volume" "1.8L").2.tail.headD 0 ∧
    ¬ (curve "Volume" "1.8L").2.Pairwise (fun a b => b ≤ a) := by
  refine ⟨rfl, rfl, ?_, ?_⟩
  · show (0.0500 : ℚ) < 0.067
    norm_num
  · intro h
    rw [show (curve "Volume" "1.8L").2 =
        ([0.0500, 0.067, 0.0289, 0.0256, 0.0222, 0.0200, 0.0167] : List ℚ)
      from rfl] at h
    have h1 := (List.pairwise_cons.mp h).1 0.067 (List.mem_cons_self _ _)
    norm_num at h1

end Saponification
